import Mathlib

/-!
Verification of the `oak_crypto` bidirectional HPKE session façade
(`src/oak_crypto/src/lib.rs`).

The repository ships only the façade layer; the `hpke` and `aead` modules it
calls (`setup_base_sender`, `setup_base_recipient`, the four context types and
their `seal`/`open` methods, `KeyPair`) are external to `src/` and are modelled
here from the specification (spec §3, §4.1–§4.4): the AEAD and the HKDF-based
key schedule are idealized as injective symbolic constructions, the P-256
Diffie–Hellman exchange is carried by discrete logarithms (so that commutativity
of scalar multiplication models the agreement of the two sides), and SEC1 point
deserialization of raw byte buffers performs the real curve-equation check over
the actual P-256 field parameters.  Byte strings are lists of naturals.
-/

/-- Byte strings (`Vec<u8>` / `&[u8]`): lists of naturals, each byte < 256 where
it matters. -/
abbrev Bytes := List Nat

/-- The UTF-8 bytes of a string (all strings used here are ASCII, where UTF-8
coincides with the code points). -/
def strBytes (s : String) : Bytes := s.data.map Char.toNat

/-- Error kinds the core produces (spec §7). -/
inductive CryptoErrorKind
  | InvalidPublicKey
  | AuthenticationFailure
  | NonceOverflow
  | RandomnessFailure
  | PrimitiveFailure
deriving DecidableEq, Repr

/-- Model of `anyhow::Error`: the underlying error kind together with the stack
of human-readable context strings attached via `.context(...)`, outermost
first. -/
structure CryptoError where
  contextMsgs : List String
  kind : CryptoErrorKind
deriving DecidableEq, Repr

/-- Model of `anyhow`'s `.context(msg)`: pushes a context string onto the error
of a failed result and leaves a successful result unchanged. -/
def errContext (msg : String) : Except CryptoError α → Except CryptoError α
  | .error e => .error ⟨msg :: e.contextMsgs, e.kind⟩
  | .ok a => .ok a

/-! ## NIST P-256 parameters (spec §4.3, §6) -/

/-- The P-256 base field prime. -/
def p256Prime : Nat := 2 ^ 256 - 2 ^ 224 + 2 ^ 192 + 2 ^ 96 - 1

/-- The P-256 curve coefficient `b` (the coefficient `a` is `p − 3`). -/
def p256B : Nat := 0x5ac635d8aa3a93e7b3ebbd55769886bc651d06b0cc53b0f63bce3c3e27d2604b

/-- The P-256 group order `n`. -/
def p256Order : Nat := 0xffffffff00000000ffffffffffffffffbce6faada7179e84f3b9cac2fc632551

/-- Big-endian interpretation of a byte string as a natural number. -/
def bytesToNat (bs : Bytes) : Nat := bs.foldl (fun acc b => acc * 256 + b) 0

/-- Modelled from the spec: SEC1 uncompressed-point validation (spec §4.3, §6
and testable property 7).  A buffer decodes to a curve point exactly when it is
65 bytes long, starts with `0x04`, and its two 32-byte big-endian coordinates
are field elements satisfying the P-256 curve equation
`y² = x³ − 3x + b (mod p)`. -/
def sec1ValidPoint (bs : Bytes) : Bool :=
  bs.length == 65 && bs.head? == some 4 &&
    (let x := bytesToNat ((bs.drop 1).take 32)
     let y := bytesToNat (bs.drop 33)
     decide (x < p256Prime) && decide (y < p256Prime) &&
       (y * y) % p256Prime == (x * x * x + (p256Prime - 3) * x + p256B) % p256Prime)

/-- Modelled from the spec: a byte buffer in serialized-public-key position.
The P-256 arithmetic lives in the out-of-scope primitive layer (spec §1), so a
point produced by honest key generation is carried symbolically by its secret
scalar (`point sk` stands for the SEC1 encoding of `sk·G`), while an
arbitrary caller-supplied buffer is carried as raw bytes and subjected to the
curve-equation check on deserialization. -/
inductive KeyBytes
  | point (sk : Nat)
  | raw (bs : Bytes)
deriving DecidableEq, Repr

/-- A deserialized curve point: either a point with known discrete logarithm
(`gen sk` is `sk·G`) or a valid externally supplied encoding. -/
inductive Point
  | gen (sk : Nat)
  | ext (bs : Bytes)
deriving DecidableEq, Repr

/-- Modelled from the spec: DHKEM deserialization (spec §4.3), rejecting the
identity and non-curve points with `InvalidPublicKey`.  A symbolic point is the
identity exactly when its scalar vanishes modulo the group order; raw bytes
must pass the SEC1 curve-equation check. -/
def deserializePoint : KeyBytes → Except CryptoError Point
  | .point sk =>
      if sk % p256Order = 0 then .error ⟨[], .InvalidPublicKey⟩ else .ok (.gen sk)
  | .raw bs =>
      if sec1ValidPoint bs then .ok (.ext bs) else .error ⟨[], .InvalidPublicKey⟩

/-- Modelled from the spec: the raw ECDH output (spec §4.3).  For two points of
known discrete logarithm the shared value is determined by the product of the
scalars, which is what makes encapsulation and decapsulation agree. -/
inductive SharedDh
  | known (prod : Nat)
  | mixed (sk : Nat) (bs : Bytes)
deriving DecidableEq, Repr

/-- ECDH of a secret scalar with a deserialized point. -/
def dhOf (sk : Nat) : Point → SharedDh
  | .gen d => .known (sk * d)
  | .ext bs => .mixed sk bs

/-- Modelled from the spec: the HPKE shared secret
`zz = ExtractAndExpand(dh, serialize(eph_pk) || serialize(recipient_public))`
(spec §4.3), idealized as an injective symbolic construction in its inputs. -/
structure Zz where
  dh : SharedDh
  enc : KeyBytes
  pkR : KeyBytes
deriving DecidableEq, Repr

/-- Modelled from the spec: a piece of key material produced by the labeled
HKDF key schedule (spec §4.2), idealized as injective in the shared secret,
the info string, and the derivation label. -/
inductive SymKey
  | derive (zz : Zz) (info : Bytes) (label : String)
deriving DecidableEq, Repr

/-- The info string a derived key was bound to. -/
def SymKey.infoOf : SymKey → Bytes
  | .derive _ info _ => info

/-- Modelled from the spec: the two directions' key/base-nonce material derived
by the key schedule from one HPKE setup (spec §3 "SessionKeys", §4.2). -/
structure SessionKeys where
  request_key : SymKey
  request_base_nonce : SymKey
  response_key : SymKey
  response_base_nonce : SymKey
deriving DecidableEq, Repr

/-- Modelled from the spec: the §4.2 key schedule, deriving the four labeled
values from the shared secret and the info string. -/
def keySchedule (zz : Zz) (info : Bytes) : SessionKeys :=
  { request_key := .derive zz info "request_key"
    request_base_nonce := .derive zz info "request_base_nonce"
    response_key := .derive zz info "response_key"
    response_base_nonce := .derive zz info "response_base_nonce" }

/-! ## AEAD contexts (spec §3, §4.1) -/

/-- The per-message AEAD nonce: `base_nonce XOR (seq as 12-byte BE)` in the
source; with symbolic base nonces the pair of the two is the faithful injective
image of that construction for a fixed base nonce. -/
structure Nonce where
  base : SymKey
  ctr : Nat
deriving DecidableEq, Repr

/-- An AEAD context: key, base nonce and a sequence counter starting at 0
(spec §3). -/
structure AeadCtx where
  key : SymKey
  base_nonce : SymKey
  seq : Nat
deriving DecidableEq, Repr

/-- The sequence value whose reaching (after increment) is a fatal
`NonceOverflow` (spec §4.1: `seq == 2^64 − 1` after increment). -/
def seqLimit : Nat := 2 ^ 64 - 1

/-- Modelled from the spec: an idealized AEAD ciphertext-with-tag.  AES-128-GCM
itself is out of scope (spec §1); the ciphertext records exactly what the tag
authenticates — key, nonce, associated data — together with the plaintext it
hides, and `openCt` inverts `seal` precisely when all three match. -/
structure Ciphertext where
  key : SymKey
  nonce : Nonce
  aad : Bytes
  body : Bytes
deriving DecidableEq, Repr

/-- Modelled from the spec: AEAD `seal` on a context (spec §4.1): encrypts
under the per-message nonce and advances `seq`; hitting `seqLimit` after the
increment is a fatal `NonceOverflow`. -/
def AeadCtx.seal (ctx : AeadCtx) (plaintext aad : Bytes) :
    Except CryptoError (Ciphertext × AeadCtx) :=
  if ctx.seq + 1 = seqLimit then .error ⟨[], .NonceOverflow⟩
  else .ok (⟨ctx.key, ⟨ctx.base_nonce, ctx.seq⟩, aad, plaintext⟩,
            { ctx with seq := ctx.seq + 1 })

/-- Modelled from the spec: AEAD `open` on a context (spec §4.1): fails with
`AuthenticationFailure` when the tag does not verify (key, nonce or associated
data mismatch); a successful open advances `seq`, with the same fatal overflow
as `seal`. -/
def AeadCtx.openCt (ctx : AeadCtx) (ct : Ciphertext) (aad : Bytes) :
    Except CryptoError (Bytes × AeadCtx) :=
  if ct.key = ctx.key ∧ ct.nonce = Nonce.mk ctx.base_nonce ctx.seq ∧ ct.aad = aad then
    if ctx.seq + 1 = seqLimit then .error ⟨[], .NonceOverflow⟩
    else .ok (ct.body, { ctx with seq := ctx.seq + 1 })
  else .error ⟨[], .AuthenticationFailure⟩

/-! ## HPKE setup layer (spec §4.3, §4.4) — the `crate::hpke` module -/

/-- Modelled from the spec: a P-256 key pair, carried by its secret scalar. -/
structure KeyPair where
  sk : Nat
deriving DecidableEq, Repr

/-- Modelled from the spec: scalar sampling for key generation — a uniform
scalar in `[1, n−1]` drawn from the caller-supplied CSPRNG (spec §4.3), here an
explicit `rng` parameter. -/
def sampleScalar (rng : Nat) : Nat := rng % (p256Order - 1) + 1

/-- Modelled from the spec: `KeyPair.generate()` (spec §4.3). -/
def KeyPair.generate (rng : Nat) : KeyPair := ⟨sampleScalar rng⟩

/-- Modelled from the spec: SEC1 serialization of the key pair's public
point. -/
def KeyPair.get_serialized_public_key (kp : KeyPair) : KeyBytes := .point kp.sk

/-- The request-direction context held by the sender (seals requests). -/
structure SenderContext where
  ctx : AeadCtx
deriving DecidableEq, Repr

/-- The response-direction context held by the sender (opens responses). -/
structure SenderResponseContext where
  ctx : AeadCtx
deriving DecidableEq, Repr

/-- The request-direction context held by the recipient (opens requests). -/
structure RecipientContext where
  ctx : AeadCtx
deriving DecidableEq, Repr

/-- The response-direction context held by the recipient (seals responses). -/
structure RecipientResponseContext where
  ctx : AeadCtx
deriving DecidableEq, Repr

/-- `SenderContext::seal`: seal under the sender's request context. -/
def SenderContext.seal (c : SenderContext) (plaintext aad : Bytes) :
    Except CryptoError (Ciphertext × SenderContext) :=
  (c.ctx.seal plaintext aad).map (fun r => (r.1, ⟨r.2⟩))

/-- `SenderResponseContext::open`: open under the sender's response context. -/
def SenderResponseContext.openCt (c : SenderResponseContext) (ct : Ciphertext) (aad : Bytes) :
    Except CryptoError (Bytes × SenderResponseContext) :=
  (c.ctx.openCt ct aad).map (fun r => (r.1, ⟨r.2⟩))

/-- `RecipientContext::open`: open under the recipient's request context. -/
def RecipientContext.openCt (c : RecipientContext) (ct : Ciphertext) (aad : Bytes) :
    Except CryptoError (Bytes × RecipientContext) :=
  (c.ctx.openCt ct aad).map (fun r => (r.1, ⟨r.2⟩))

/-- `RecipientResponseContext::seal`: seal under the recipient's response
context. -/
def RecipientResponseContext.seal (c : RecipientResponseContext) (plaintext aad : Bytes) :
    Except CryptoError (Ciphertext × RecipientResponseContext) :=
  (c.ctx.seal plaintext aad).map (fun r => (r.1, ⟨r.2⟩))

/-- Modelled from the spec: `setup_base_sender(recipient_public, info)`
(spec §4.4): encapsulate against the recipient public key using a fresh
ephemeral key pair (the `rng` draw), run the key schedule, and return the
encapsulated key with the two sender-side contexts at sequence 0. -/
def setup_base_sender (recipientKey : KeyBytes) (info : Bytes) (rng : Nat) :
    Except CryptoError (KeyBytes × SenderContext × SenderResponseContext) := do
  let pkR ← deserializePoint recipientKey
  let eph : Nat := sampleScalar rng
  let enc : KeyBytes := .point eph
  let ks := keySchedule ⟨dhOf eph pkR, enc, recipientKey⟩ info
  .ok (enc, ⟨⟨ks.request_key, ks.request_base_nonce, 0⟩⟩,
       ⟨⟨ks.response_key, ks.response_base_nonce, 0⟩⟩)

/-- Modelled from the spec: `setup_base_recipient(enc, recipient_keypair,
info)` (spec §4.4): decapsulate the encapsulated key, run the identical key
schedule, and return the two recipient-side contexts at sequence 0. -/
def setup_base_recipient (enc : KeyBytes) (kp : KeyPair) (info : Bytes) :
    Except CryptoError (RecipientContext × RecipientResponseContext) := do
  let pkE ← deserializePoint enc
  let ks := keySchedule ⟨dhOf kp.sk pkE, enc, kp.get_serialized_public_key⟩ info
  .ok (⟨⟨ks.request_key, ks.request_base_nonce, 0⟩⟩,
       ⟨⟨ks.response_key, ks.response_base_nonce, 0⟩⟩)

/-! ## The session façade — translated from `src/oak_crypto/src/lib.rs` -/

/-- `OAK_HPKE_INFO`: the fixed info string used by the façade
(lib.rs line 44). -/
def OAK_HPKE_INFO : Bytes := strBytes "Oak Hybrid Public Key Encryption v1"

/-- `SenderCryptoProvider` (lib.rs lines 59–61): stores the serialized
recipient public key. -/
structure SenderCryptoProvider where
  serialized_recipient_public_key : KeyBytes
deriving DecidableEq, Repr

/-- `SenderCryptoProvider::new` (lib.rs lines 67–71): stores a copy of the
given bytes; performs no validation. -/
def SenderCryptoProvider.new (serialized_recipient_public_key : KeyBytes) :
    SenderCryptoProvider :=
  ⟨serialized_recipient_public_key⟩

/-- `SenderRequestEncryptor` (lib.rs lines 92–95). -/
structure SenderRequestEncryptor where
  sender_context : SenderContext
  sender_response_context : SenderResponseContext
deriving DecidableEq, Repr

/-- `SenderResponseDecryptor` (lib.rs lines 119–122). -/
structure SenderResponseDecryptor where
  sender_context : SenderContext
  sender_response_context : SenderResponseContext
deriving DecidableEq, Repr

/-- `SenderCryptoProvider::create_encryptor` (lib.rs lines 77–88): one HPKE
sender setup with a fresh ephemeral key pair (the `rng` draw), wrapped in the
context string `couldn't create sender request encryptor`. -/
def SenderCryptoProvider.create_encryptor (self : SenderCryptoProvider) (rng : Nat) :
    Except CryptoError (KeyBytes × SenderRequestEncryptor) := do
  let r ← errContext "couldn\x27t create sender request encryptor"
    (setup_base_sender self.serialized_recipient_public_key OAK_HPKE_INFO rng)
  .ok (r.1, ⟨r.2.1, r.2.2⟩)

/-- `SenderRequestEncryptor::encrypt` (lib.rs lines 101–115): seals under the
request context and hands the (advanced) request context and the untouched
response context to the returned `SenderResponseDecryptor`. -/
def SenderRequestEncryptor.encrypt (self : SenderRequestEncryptor)
    (plaintext associated_data : Bytes) :
    Except CryptoError (Ciphertext × SenderResponseDecryptor) := do
  let r ← errContext "couldn\x27t encrypt request"
    (self.sender_context.seal plaintext associated_data)
  .ok (r.1, ⟨r.2, self.sender_response_context⟩)

/-- `SenderResponseDecryptor::decrypt` (lib.rs lines 129–143): opens under the
response context and hands the untouched request context and the (advanced)
response context to the returned `SenderRequestEncryptor`. -/
def SenderResponseDecryptor.decrypt (self : SenderResponseDecryptor)
    (ciphertext : Ciphertext) (associated_data : Bytes) :
    Except CryptoError (Bytes × SenderRequestEncryptor) := do
  let r ← errContext "couldn\x27t decrypt response"
    (self.sender_response_context.openCt ciphertext associated_data)
  .ok (r.1, ⟨self.sender_context, r.2⟩)

/-- `RecipientCryptoProvider` (lib.rs lines 161–163): holds the recipient's
key pair. -/
structure RecipientCryptoProvider where
  key_pair : KeyPair
deriving DecidableEq, Repr

/-- `RecipientCryptoProvider::new` (lib.rs lines 173–177): generates a fresh
key pair from the platform CSPRNG (the `rng` draw). -/
def RecipientCryptoProvider.new (rng : Nat) : RecipientCryptoProvider :=
  ⟨KeyPair.generate rng⟩

/-- `RecipientCryptoProvider::get_serialized_public_key` (lib.rs
lines 181–183). -/
def RecipientCryptoProvider.get_serialized_public_key (self : RecipientCryptoProvider) :
    KeyBytes :=
  self.key_pair.get_serialized_public_key

/-- `RecipientRequestDecryptor` (lib.rs lines 206–209). -/
structure RecipientRequestDecryptor where
  recipient_context : RecipientContext
  recipient_response_context : RecipientResponseContext
deriving DecidableEq, Repr

/-- `RecipientResponseEncryptor` (lib.rs lines 233–236). -/
structure RecipientResponseEncryptor where
  recipient_context : RecipientContext
  recipient_response_context : RecipientResponseContext
deriving DecidableEq, Repr

/-- `RecipientCryptoProvider::create_decryptor` (lib.rs lines 188–202): one
HPKE recipient setup against the encapsulated key, wrapped in the context
string `couldn't create recipient request decryptor`. -/
def RecipientCryptoProvider.create_decryptor (self : RecipientCryptoProvider)
    (serialized_encapsulated_public_key : KeyBytes) :
    Except CryptoError RecipientRequestDecryptor := do
  let r ← errContext "couldn\x27t create recipient request decryptor"
    (setup_base_recipient serialized_encapsulated_public_key self.key_pair OAK_HPKE_INFO)
  .ok ⟨r.1, r.2⟩

/-- `RecipientRequestDecryptor::decrypt` (lib.rs lines 215–229): opens under
the request context and hands the (advanced) request context and the untouched
response context to the returned `RecipientResponseEncryptor`. -/
def RecipientRequestDecryptor.decrypt (self : RecipientRequestDecryptor)
    (ciphertext : Ciphertext) (associated_data : Bytes) :
    Except CryptoError (Bytes × RecipientResponseEncryptor) := do
  let r ← errContext "couldn\x27t decrypt request"
    (self.recipient_context.openCt ciphertext associated_data)
  .ok (r.1, ⟨r.2, self.recipient_response_context⟩)

/-- `RecipientResponseEncryptor::encrypt` (lib.rs lines 243–257): seals under
the response context and hands the untouched request context and the
(advanced) response context to the returned `RecipientRequestDecryptor`. -/
def RecipientResponseEncryptor.encrypt (self : RecipientResponseEncryptor)
    (plaintext associated_data : Bytes) :
    Except CryptoError (Ciphertext × RecipientRequestDecryptor) := do
  let r ← errContext "couldn\x27t encrypt response"
    (self.recipient_response_context.seal plaintext associated_data)
  .ok (r.1, ⟨self.recipient_context, r.2⟩)

/-! ## Derived forms used by the development -/

/-- The sender-side wrapper a successful sender setup yields for a given
shared secret: both contexts at sequence 0 with the §4.2-derived material. -/
def senderEncryptorOf (zz : Zz) : SenderRequestEncryptor :=
  ⟨⟨⟨(keySchedule zz OAK_HPKE_INFO).request_key,
     (keySchedule zz OAK_HPKE_INFO).request_base_nonce, 0⟩⟩,
   ⟨⟨(keySchedule zz OAK_HPKE_INFO).response_key,
     (keySchedule zz OAK_HPKE_INFO).response_base_nonce, 0⟩⟩⟩

/-- The recipient-side wrapper a successful recipient setup yields for a given
shared secret: both contexts at sequence 0 with the §4.2-derived material. -/
def recipientDecryptorOf (zz : Zz) : RecipientRequestDecryptor :=
  ⟨⟨⟨(keySchedule zz OAK_HPKE_INFO).request_key,
     (keySchedule zz OAK_HPKE_INFO).request_base_nonce, 0⟩⟩,
   ⟨⟨(keySchedule zz OAK_HPKE_INFO).response_key,
     (keySchedule zz OAK_HPKE_INFO).response_base_nonce, 0⟩⟩⟩

/-! ## Borrow-discipline translation for provider methods

The three provider methods take `&self` in lib.rs.  A method call through a
shared borrow is translated as a function returning its result together with
the provider as the caller still holds it afterwards; a shared borrow cannot
write the fields. -/

/-- Method-call form of `create_encryptor` (`&self` receiver, lib.rs
line 77). -/
def SenderCryptoProvider.create_encryptor_call (self : SenderCryptoProvider) (rng : Nat) :
    (Except CryptoError (KeyBytes × SenderRequestEncryptor)) × SenderCryptoProvider :=
  (self.create_encryptor rng, self)

/-- Method-call form of `get_serialized_public_key` (`&self` receiver, lib.rs
line 181). -/
def RecipientCryptoProvider.get_serialized_public_key_call (self : RecipientCryptoProvider) :
    KeyBytes × RecipientCryptoProvider :=
  (self.get_serialized_public_key, self)

/-- Method-call form of `create_decryptor` (`&self` receiver, lib.rs
line 188). -/
def RecipientCryptoProvider.create_decryptor_call (self : RecipientCryptoProvider)
    (enc : KeyBytes) :
    (Except CryptoError RecipientRequestDecryptor) × RecipientCryptoProvider :=
  (self.create_decryptor enc, self)

/-! ## The session state machine induced by the façade types

The four linear wrappers expose exactly one operation each, consuming the
receiver and returning the wrapper of the complementary role (lib.rs lines
101, 129, 215, 243).  The step relations below are the direct transcription of
those method signatures: a step of a given kind exists only from the wrapper
that offers the method, and lands in the wrapper the method returns. -/

/-- The one sender-side linear wrapper alive at any instant. -/
inductive SenderWrapper
  | enc (e : SenderRequestEncryptor)
  | dec (d : SenderResponseDecryptor)

/-- Whether the sender currently holds the request encryptor. -/
def SenderWrapper.isEnc : SenderWrapper → Bool
  | .enc _ => true
  | .dec _ => false

/-- An operation invoked on a sender-side wrapper. -/
inductive SenderOp
  | encryptOp (pt aad : Bytes)
  | decryptOp (ct : Ciphertext) (aad : Bytes)

/-- Whether a sender-side operation is an encrypt. -/
def SenderOp.isEncrypt : SenderOp → Bool
  | .encryptOp _ _ => true
  | .decryptOp _ _ => false

/-- One successful sender-side façade call: `encrypt` exists only on
`SenderRequestEncryptor` and returns a `SenderResponseDecryptor`; `decrypt`
exists only on `SenderResponseDecryptor` and returns a
`SenderRequestEncryptor`; both consume their receiver. -/
inductive SenderStep : SenderWrapper → SenderOp → SenderWrapper → Prop
  | stepEncrypt (e : SenderRequestEncryptor) (pt aad : Bytes) (ct : Ciphertext)
      (d : SenderResponseDecryptor) :
      e.encrypt pt aad = .ok (ct, d) →
      SenderStep (.enc e) (.encryptOp pt aad) (.dec d)
  | stepDecrypt (d : SenderResponseDecryptor) (ct : Ciphertext) (aad pt : Bytes)
      (e : SenderRequestEncryptor) :
      d.decrypt ct aad = .ok (pt, e) →
      SenderStep (.dec d) (.decryptOp ct aad) (.enc e)

/-- A chain of successful sender-side calls, each consuming the wrapper the
previous call returned. -/
inductive SenderTrace : SenderWrapper → List SenderOp → SenderWrapper → Prop
  | nil (w : SenderWrapper) : SenderTrace w [] w
  | cons (w w' w'' : SenderWrapper) (op : SenderOp) (ops : List SenderOp) :
      SenderStep w op w' → SenderTrace w' ops w'' → SenderTrace w (op :: ops) w''

/-- The one recipient-side linear wrapper alive at any instant. -/
inductive RecipientWrapper
  | dec (d : RecipientRequestDecryptor)
  | enc (e : RecipientResponseEncryptor)

/-- Whether the recipient currently holds the request decryptor. -/
def RecipientWrapper.isDec : RecipientWrapper → Bool
  | .dec _ => true
  | .enc _ => false

/-- An operation invoked on a recipient-side wrapper. -/
inductive RecipientOp
  | decryptOp (ct : Ciphertext) (aad : Bytes)
  | encryptOp (pt aad : Bytes)

/-- Whether a recipient-side operation is a decrypt. -/
def RecipientOp.isDecrypt : RecipientOp → Bool
  | .decryptOp _ _ => true
  | .encryptOp _ _ => false

/-- One successful recipient-side façade call: `decrypt` exists only on
`RecipientRequestDecryptor` and returns a `RecipientResponseEncryptor`;
`encrypt` exists only on `RecipientResponseEncryptor` and returns a
`RecipientRequestDecryptor`; both consume their receiver. -/
inductive RecipientStep : RecipientWrapper → RecipientOp → RecipientWrapper → Prop
  | stepDecrypt (d : RecipientRequestDecryptor) (ct : Ciphertext) (aad pt : Bytes)
      (e : RecipientResponseEncryptor) :
      d.decrypt ct aad = .ok (pt, e) →
      RecipientStep (.dec d) (.decryptOp ct aad) (.enc e)
  | stepEncrypt (e : RecipientResponseEncryptor) (pt aad : Bytes) (ct : Ciphertext)
      (d : RecipientRequestDecryptor) :
      e.encrypt pt aad = .ok (ct, d) →
      RecipientStep (.enc e) (.encryptOp pt aad) (.dec d)

/-- A chain of successful recipient-side calls, each consuming the wrapper the
previous call returned. -/
inductive RecipientTrace : RecipientWrapper → List RecipientOp → RecipientWrapper → Prop
  | nil (w : RecipientWrapper) : RecipientTrace w [] w
  | cons (w w' w'' : RecipientWrapper) (op : RecipientOp) (ops : List RecipientOp) :
      RecipientStep w op w' → RecipientTrace w' ops w'' → RecipientTrace w (op :: ops) w''

/-! ## Concrete session fixtures

A session between recipient randomness 1 and sender randomness 2, with a few
deliberately broken inputs; closed witnesses evaluate the façade on them. -/

/-- Fixture: the shared secret as the sender derives it. -/
def zzW : Zz :=
  ⟨.known (sampleScalar 2 * sampleScalar 1), .point (sampleScalar 2), .point (sampleScalar 1)⟩

/-- Fixture: the shared secret as the recipient derives it. -/
def zzWr : Zz :=
  ⟨.known (sampleScalar 1 * sampleScalar 2), .point (sampleScalar 2), .point (sampleScalar 1)⟩

/-- Fixture: the session key material on the sender side. -/
def ksW : SessionKeys := keySchedule zzW OAK_HPKE_INFO

/-- Fixture: the session key material on the recipient side. -/
def ksWr : SessionKeys := keySchedule zzWr OAK_HPKE_INFO

/-- Fixture: the fresh sender request encryptor of the session. -/
def eW : SenderRequestEncryptor := senderEncryptorOf zzW

/-- Fixture: the fresh recipient request decryptor of the session. -/
def dW : RecipientRequestDecryptor := recipientDecryptorOf zzWr

/-- Fixture: the first request ciphertext (plaintext `[104, 105]`, associated
data `[1]`). -/
def ctW : Ciphertext := ⟨ksW.request_key, ⟨ksW.request_base_nonce, 0⟩, [1], [104, 105]⟩

/-- Fixture: the sender response decryptor after the first encrypt. -/
def sdW : SenderResponseDecryptor :=
  ⟨⟨⟨ksW.request_key, ksW.request_base_nonce, 1⟩⟩,
   ⟨⟨ksW.response_key, ksW.response_base_nonce, 0⟩⟩⟩

/-- Fixture: the first response ciphertext (plaintext `[9]`, associated data
`[2]`). -/
def respCtW : Ciphertext := ⟨ksW.response_key, ⟨ksW.response_base_nonce, 0⟩, [2], [9]⟩

/-- Fixture: the sender request encryptor after one full exchange. -/
def e2W : SenderRequestEncryptor :=
  ⟨⟨⟨ksW.request_key, ksW.request_base_nonce, 1⟩⟩,
   ⟨⟨ksW.response_key, ksW.response_base_nonce, 1⟩⟩⟩

/-- Fixture: the recipient response encryptor after decrypting the first
request. -/
def reW : RecipientResponseEncryptor :=
  ⟨⟨⟨ksWr.request_key, ksWr.request_base_nonce, 1⟩⟩,
   ⟨⟨ksWr.response_key, ksWr.response_base_nonce, 0⟩⟩⟩

/-- Fixture: the recipient request decryptor after one full exchange. -/
def d2W : RecipientRequestDecryptor :=
  ⟨⟨⟨ksWr.request_key, ksWr.request_base_nonce, 1⟩⟩,
   ⟨⟨ksWr.response_key, ksWr.response_base_nonce, 1⟩⟩⟩

/-- Fixture: a ciphertext under a key no context of the session holds. -/
def badCtW : Ciphertext :=
  ⟨.derive zzW OAK_HPKE_INFO "bogus", ⟨ksW.response_base_nonce, 0⟩, [], [7]⟩

/-- Fixture: a sender request encryptor whose request context sits one seal
away from the fatal sequence value. -/
def eOverW : SenderRequestEncryptor :=
  ⟨⟨⟨ksW.request_key, ksW.request_base_nonce, seqLimit - 1⟩⟩,
   ⟨⟨ksW.response_key, ksW.response_base_nonce, 0⟩⟩⟩

/-- Fixture: a recipient response encryptor whose response context sits one
seal away from the fatal sequence value. -/
def reOverW : RecipientResponseEncryptor :=
  ⟨⟨⟨ksWr.request_key, ksWr.request_base_nonce, 0⟩⟩,
   ⟨⟨ksWr.response_key, ksWr.response_base_nonce, seqLimit - 1⟩⟩⟩

/-- Fixture: the result of `create_encryptor` with randomness 1 on a provider
holding the point of scalar 5. -/
def rW1 : KeyBytes × SenderRequestEncryptor :=
  (.point (sampleScalar 1),
   senderEncryptorOf ⟨.known (sampleScalar 1 * 5), .point (sampleScalar 1), .point 5⟩)

/-- Fixture: the result of `create_encryptor` with randomness 2 on the same
provider. -/
def rW2 : KeyBytes × SenderRequestEncryptor :=
  (.point (sampleScalar 2),
   senderEncryptorOf ⟨.known (sampleScalar 2 * 5), .point (sampleScalar 2), .point 5⟩)

/-- Fixture: the decryptor a recipient with scalar 5 builds against the
encapsulated point of scalar 2. -/
def dW5 : RecipientRequestDecryptor :=
  recipientDecryptorOf ⟨.known 10, .point 2, .point 5⟩

/-! ## Helper lemmas -/

/-- A sampled scalar is nonzero modulo the group order: it lies in `[1, n−1]`. -/
theorem sampleScalar_mod_ne_zero (rng : Nat) : sampleScalar rng % p256Order ≠ 0 := by
  have h2 : 2 ≤ p256Order := by decide
  have hlt : rng % (p256Order - 1) < p256Order - 1 :=
    Nat.mod_lt _ (by omega)
  have : sampleScalar rng < p256Order := by
    unfold sampleScalar; omega
  rw [Nat.mod_eq_of_lt this]
  unfold sampleScalar; omega

/-- Evaluation of `deserializePoint` on a symbolic point with a valid scalar. -/
theorem deserializePoint_point (sk : Nat) (h : sk % p256Order ≠ 0) :
    deserializePoint (.point sk) = .ok (.gen sk) := by
  simp [deserializePoint, h]

/-- `errContext` preserves success. -/
theorem errContext_ok (msg : String) (x : Except CryptoError α) (a : α)
    (h : errContext msg x = .ok a) : x = .ok a := by
  cases x with
  | error e => simp [errContext] at h
  | ok b => simpa [errContext] using h

/-- The error produced through `errContext` carries the pushed message at the
head of its context stack. -/
theorem errContext_error_head (msg : String) (x : Except CryptoError α) (e : CryptoError)
    (h : errContext msg x = .error e) : e.contextMsgs.head? = some msg := by
  cases x with
  | error e₀ =>
      simp only [errContext] at h
      injection h with h₂
      rw [← h₂]
      rfl
  | ok b => simp [errContext] at h

/-- A successful sender setup returns the serialization of the ephemeral
scalar sampled from this very call, and the two contexts derived by the §4.2
key schedule for this session at sequence 0. -/
theorem setup_base_sender_ok (k : KeyBytes) (info : Bytes) (rng : Nat)
    (v : KeyBytes × SenderContext × SenderResponseContext)
    (h : setup_base_sender k info rng = .ok v) :
    ∃ pt, deserializePoint k = .ok pt ∧
      v = (.point (sampleScalar rng),
           ⟨⟨(keySchedule ⟨dhOf (sampleScalar rng) pt, .point (sampleScalar rng), k⟩
                info).request_key,
             (keySchedule ⟨dhOf (sampleScalar rng) pt, .point (sampleScalar rng), k⟩
                info).request_base_nonce, 0⟩⟩,
           ⟨⟨(keySchedule ⟨dhOf (sampleScalar rng) pt, .point (sampleScalar rng), k⟩
                info).response_key,
             (keySchedule ⟨dhOf (sampleScalar rng) pt, .point (sampleScalar rng), k⟩
                info).response_base_nonce, 0⟩⟩) := by
  unfold setup_base_sender at h
  cases hk : deserializePoint k with
  | error e => rw [hk] at h; simp [Bind.bind, Except.bind] at h
  | ok pt =>
      rw [hk] at h
      simp only [Bind.bind, Except.bind] at h
      injection h with h₂
      exact ⟨pt, rfl, h₂.symm⟩

/-- A successful recipient setup returns the two contexts derived by the §4.2
key schedule for this session at sequence 0. -/
theorem setup_base_recipient_ok (enc : KeyBytes) (kp : KeyPair) (info : Bytes)
    (v : RecipientContext × RecipientResponseContext)
    (h : setup_base_recipient enc kp info = .ok v) :
    ∃ pt, deserializePoint enc = .ok pt ∧
      v = (⟨⟨(keySchedule ⟨dhOf kp.sk pt, enc, kp.get_serialized_public_key⟩
                info).request_key,
             (keySchedule ⟨dhOf kp.sk pt, enc, kp.get_serialized_public_key⟩
                info).request_base_nonce, 0⟩⟩,
           ⟨⟨(keySchedule ⟨dhOf kp.sk pt, enc, kp.get_serialized_public_key⟩
                info).response_key,
             (keySchedule ⟨dhOf kp.sk pt, enc, kp.get_serialized_public_key⟩
                info).response_base_nonce, 0⟩⟩) := by
  unfold setup_base_recipient at h
  cases hk : deserializePoint enc with
  | error e => rw [hk] at h; simp [Bind.bind, Except.bind] at h
  | ok pt =>
      rw [hk] at h
      simp only [Bind.bind, Except.bind] at h
      injection h with h₂
      exact ⟨pt, rfl, h₂.symm⟩

/-- Evaluation of `create_encryptor` on a provider holding a symbolic point
with a valid scalar. -/
theorem create_encryptor_point_eval (sk rng : Nat) (h : sk % p256Order ≠ 0) :
    (SenderCryptoProvider.new (.point sk)).create_encryptor rng =
      .ok (.point (sampleScalar rng),
        senderEncryptorOf ⟨.known (sampleScalar rng * sk), .point (sampleScalar rng), .point sk⟩) := by
  simp [SenderCryptoProvider.new, SenderCryptoProvider.create_encryptor, setup_base_sender,
    deserializePoint, h, errContext, dhOf, senderEncryptorOf, keySchedule,
    Bind.bind, Except.bind]

/-- Evaluation of `create_decryptor` against a symbolic encapsulated point
with a valid scalar. -/
theorem create_decryptor_point_eval (rk eph : Nat) (h : eph % p256Order ≠ 0) :
    (RecipientCryptoProvider.mk ⟨rk⟩).create_decryptor (.point eph) =
      .ok (recipientDecryptorOf ⟨.known (rk * eph), .point eph, .point rk⟩) := by
  simp [RecipientCryptoProvider.create_decryptor, setup_base_recipient,
    deserializePoint, h, errContext, dhOf, recipientDecryptorOf, keySchedule,
    KeyPair.get_serialized_public_key, Bind.bind, Except.bind]

/-- Evaluation of a successful `SenderRequestEncryptor::encrypt`. -/
theorem sender_encrypt_eval (e : SenderRequestEncryptor) (P A : Bytes)
    (h : e.sender_context.ctx.seq + 1 ≠ seqLimit) :
    e.encrypt P A =
      .ok (⟨e.sender_context.ctx.key,
            ⟨e.sender_context.ctx.base_nonce, e.sender_context.ctx.seq⟩, A, P⟩,
           ⟨⟨{ e.sender_context.ctx with seq := e.sender_context.ctx.seq + 1 }⟩,
            e.sender_response_context⟩) := by
  simp [SenderRequestEncryptor.encrypt, SenderContext.seal, AeadCtx.seal, h,
    errContext, Bind.bind, Except.bind, Except.map]

/-- Evaluation of a successful `RecipientRequestDecryptor::decrypt`: a
ciphertext sealed under the matching key, nonce and associated data opens to
its plaintext. -/
theorem recipient_decrypt_eval (d : RecipientRequestDecryptor) (ct : Ciphertext) (A : Bytes)
    (hk : ct.key = d.recipient_context.ctx.key)
    (hn : ct.nonce = Nonce.mk d.recipient_context.ctx.base_nonce d.recipient_context.ctx.seq)
    (ha : ct.aad = A)
    (h : d.recipient_context.ctx.seq + 1 ≠ seqLimit) :
    d.decrypt ct A =
      .ok (ct.body,
           ⟨⟨{ d.recipient_context.ctx with seq := d.recipient_context.ctx.seq + 1 }⟩,
            d.recipient_response_context⟩) := by
  simp [RecipientRequestDecryptor.decrypt, RecipientContext.openCt, AeadCtx.openCt,
    hk, hn, ha, h, errContext, Bind.bind, Except.bind, Except.map]

/-! ## Claims -/

/-- C1: round-trip, single exchange — if the sender provider (holding the
public key published by the recipient provider) yields `(enc, e)` from
`create_encryptor`, the recipient provider yields a decryptor `d` from
`create_decryptor enc`, and `e.encrypt P A` yields `(ct, _)`, then
`d.decrypt ct A` succeeds and returns exactly the plaintext `P`. -/
theorem oak_round_trip_single_exchange
    (r_rng s_rng : Nat) (P A : Bytes)
    (enc : KeyBytes) (e : SenderRequestEncryptor) (d : RecipientRequestDecryptor)
    (ct : Ciphertext) (sd : SenderResponseDecryptor)
    (hs : (SenderCryptoProvider.new
            ((RecipientCryptoProvider.new r_rng).get_serialized_public_key)).create_encryptor
            s_rng = .ok (enc, e))
    (hd : (RecipientCryptoProvider.new r_rng).create_decryptor enc = .ok d)
    (he : e.encrypt P A = .ok (ct, sd)) :
    ∃ re : RecipientResponseEncryptor, d.decrypt ct A = .ok (P, re) := by
  have hpub : (RecipientCryptoProvider.new r_rng).get_serialized_public_key =
      KeyBytes.point (sampleScalar r_rng) := rfl
  rw [hpub, create_encryptor_point_eval _ _ (sampleScalar_mod_ne_zero r_rng)] at hs
  injection hs with hs₂
  obtain ⟨rfl, rfl⟩ := Prod.mk.inj hs₂
  have hrec : RecipientCryptoProvider.new r_rng =
      RecipientCryptoProvider.mk ⟨sampleScalar r_rng⟩ := rfl
  rw [hrec, create_decryptor_point_eval _ _ (sampleScalar_mod_ne_zero s_rng)] at hd
  injection hd with hd₂
  subst hd₂
  rw [sender_encrypt_eval _ _ _ (show (0 : Nat) + 1 ≠ seqLimit by decide)] at he
  injection he with he₂
  obtain ⟨rfl, rfl⟩ := Prod.mk.inj he₂
  rw [Nat.mul_comm (sampleScalar r_rng) (sampleScalar s_rng)]
  exact ⟨_, recipient_decrypt_eval _ _ _ rfl rfl rfl (show (0 : Nat) + 1 ≠ seqLimit by decide)⟩

/-- C1 witness: the fixture session (recipient randomness 1, sender
randomness 2) round-trips the plaintext `[104, 105]` with associated data
`[1]`. -/
theorem oak_round_trip_single_exchange_witness :
    ((SenderCryptoProvider.new
        ((RecipientCryptoProvider.new 1).get_serialized_public_key)).create_encryptor 2 =
      .ok (.point (sampleScalar 2), eW)) ∧
    ((RecipientCryptoProvider.new 1).create_decryptor (.point (sampleScalar 2)) = .ok dW) ∧
    (eW.encrypt [104, 105] [1] = .ok (ctW, sdW)) ∧
    ∃ re : RecipientResponseEncryptor, dW.decrypt ctW [1] = .ok ([104, 105], re) :=
  ⟨rfl, rfl, rfl,
   oak_round_trip_single_exchange 1 2 [104, 105] [1] (.point (sampleScalar 2)) eW dW ctW sdW
     rfl rfl rfl⟩

/-- C2: on failure of a decrypt operation the call returns a bare error value —
`Except.error` carries no next-step wrapper, the consumed wrapper is gone, and
the error is exactly the underlying AEAD failure with a context string pushed,
so a session whose open failed cannot be continued through the library API. -/
theorem oak_decrypt_failure_returns_no_wrapper :
    (∀ (d : SenderResponseDecryptor) (ct : Ciphertext) (aad : Bytes) (e₀ : CryptoError),
      d.sender_response_context.openCt ct aad = .error e₀ →
      d.decrypt ct aad =
        .error ⟨"couldn\x27t decrypt response" :: e₀.contextMsgs, e₀.kind⟩) ∧
    (∀ (d : RecipientRequestDecryptor) (ct : Ciphertext) (aad : Bytes) (e₀ : CryptoError),
      d.recipient_context.openCt ct aad = .error e₀ →
      d.decrypt ct aad =
        .error ⟨"couldn\x27t decrypt request" :: e₀.contextMsgs, e₀.kind⟩) := by
  constructor
  · intro d ct aad e₀ h
    simp [SenderResponseDecryptor.decrypt, h, errContext, Bind.bind, Except.bind]
  · intro d ct aad e₀ h
    simp [RecipientRequestDecryptor.decrypt, h, errContext, Bind.bind, Except.bind]

/-- C2 witness: a ciphertext under a foreign key is rejected by both decryptors
with a bare `AuthenticationFailure`. -/
theorem oak_decrypt_failure_returns_no_wrapper_witness :
    sdW.decrypt badCtW [] =
      .error ⟨["couldn\x27t decrypt response"], .AuthenticationFailure⟩ ∧
    dW.decrypt badCtW [] =
      .error ⟨["couldn\x27t decrypt request"], .AuthenticationFailure⟩ :=
  ⟨oak_decrypt_failure_returns_no_wrapper.1 sdW badCtW []
     ⟨[], .AuthenticationFailure⟩ rfl,
   oak_decrypt_failure_returns_no_wrapper.2 dW badCtW []
     ⟨[], .AuthenticationFailure⟩ rfl⟩

/-- C3: strict alternation by consumption — every successful façade step moves
to the wrapper of the complementary role (encrypt lands in a decryptor and
decrypt in an encryptor, on both sides), hence along any chained run of one
side the operations alternate: no two consecutive encrypts and no two
consecutive decrypts. -/
theorem oak_strict_alternation :
    (∀ (w w' : SenderWrapper) (op : SenderOp),
      SenderStep w op w' → w'.isEnc = !w.isEnc) ∧
    (∀ (w w' : SenderWrapper) (ops : List SenderOp),
      SenderTrace w ops w' →
        List.Chain' (fun a b => a.isEncrypt ≠ b.isEncrypt) ops) ∧
    (∀ (w w' : RecipientWrapper) (op : RecipientOp),
      RecipientStep w op w' → w'.isDec = !w.isDec) ∧
    (∀ (w w' : RecipientWrapper) (ops : List RecipientOp),
      RecipientTrace w ops w' →
        List.Chain' (fun a b => a.isDecrypt ≠ b.isDecrypt) ops) := by
  have hstepS : ∀ (w w' : SenderWrapper) (op : SenderOp), SenderStep w op w' →
      op.isEncrypt = w.isEnc ∧ w'.isEnc = !w.isEnc := by
    intro w w' op h
    cases h with
    | stepEncrypt e pt aad ct d _ => exact ⟨rfl, rfl⟩
    | stepDecrypt d ct aad pt e _ => exact ⟨rfl, rfl⟩
  have hstepR : ∀ (w w' : RecipientWrapper) (op : RecipientOp), RecipientStep w op w' →
      op.isDecrypt = w.isDec ∧ w'.isDec = !w.isDec := by
    intro w w' op h
    cases h with
    | stepDecrypt d ct aad pt e _ => exact ⟨rfl, rfl⟩
    | stepEncrypt e pt aad ct d _ => exact ⟨rfl, rfl⟩
  have htrS : ∀ (w : SenderWrapper) (ops : List SenderOp) (w' : SenderWrapper),
      SenderTrace w ops w' →
        List.Chain' (fun a b => a.isEncrypt ≠ b.isEncrypt) ops ∧
        ∀ a, ops.head? = some a → a.isEncrypt = w.isEnc := by
    intro w ops w' h
    induction h with
    | nil w => exact ⟨List.chain'_nil, by intro a ha; simp at ha⟩
    | cons w w' w'' op ops hstep htr ih =>
        obtain ⟨hop, hw⟩ := hstepS _ _ _ hstep
        refine ⟨List.chain'_cons'.2 ⟨?_, ih.1⟩, ?_⟩
        · intro b hb
          have hb' := ih.2 b hb
          rw [hop, hb', hw]
          cases w.isEnc <;> simp
        · intro a ha
          rw [List.head?_cons, Option.some.injEq] at ha
          rw [← ha]; exact hop
  have htrR : ∀ (w : RecipientWrapper) (ops : List RecipientOp) (w' : RecipientWrapper),
      RecipientTrace w ops w' →
        List.Chain' (fun a b => a.isDecrypt ≠ b.isDecrypt) ops ∧
        ∀ a, ops.head? = some a → a.isDecrypt = w.isDec := by
    intro w ops w' h
    induction h with
    | nil w => exact ⟨List.chain'_nil, by intro a ha; simp at ha⟩
    | cons w w' w'' op ops hstep htr ih =>
        obtain ⟨hop, hw⟩ := hstepR _ _ _ hstep
        refine ⟨List.chain'_cons'.2 ⟨?_, ih.1⟩, ?_⟩
        · intro b hb
          have hb' := ih.2 b hb
          rw [hop, hb', hw]
          cases w.isDec <;> simp
        · intro a ha
          rw [List.head?_cons, Option.some.injEq] at ha
          rw [← ha]; exact hop
  exact ⟨fun w w' op h => (hstepS w w' op h).2,
         fun w w' ops h => (htrS w ops w' h).1,
         fun w w' op h => (hstepR w w' op h).2,
         fun w w' ops h => (htrR w ops w' h).1⟩

/-- C3 witness: a concrete two-step run on each side of the fixture session —
encrypt then decrypt for the sender, decrypt then encrypt for the recipient —
with the alternation of the operations instantiated on it. -/
theorem oak_strict_alternation_witness :
    (SenderWrapper.dec sdW).isEnc = !(SenderWrapper.enc eW).isEnc ∧
    SenderTrace (.enc eW) [.encryptOp [104, 105] [1], .decryptOp respCtW [2]] (.enc e2W) ∧
    List.Chain' (fun a b => a.isEncrypt ≠ b.isEncrypt)
      [SenderOp.encryptOp [104, 105] [1], SenderOp.decryptOp respCtW [2]] ∧
    (RecipientWrapper.enc reW).isDec = !(RecipientWrapper.dec dW).isDec ∧
    RecipientTrace (.dec dW) [.decryptOp ctW [1], .encryptOp [9] [2]] (.dec d2W) ∧
    List.Chain' (fun a b => a.isDecrypt ≠ b.isDecrypt)
      [RecipientOp.decryptOp ctW [1], RecipientOp.encryptOp [9] [2]] := by
  have hs₁ : eW.encrypt [104, 105] [1] = .ok (ctW, sdW) := rfl
  have hs₂ : sdW.decrypt respCtW [2] = .ok ([9], e2W) := rfl
  have hr₁ : dW.decrypt ctW [1] = .ok ([104, 105], reW) := rfl
  have hr₂ : reW.encrypt [9] [2] = .ok (respCtW, d2W) := rfl
  have trS : SenderTrace (.enc eW) [.encryptOp [104, 105] [1], .decryptOp respCtW [2]]
      (.enc e2W) :=
    .cons _ _ _ _ _ (.stepEncrypt eW [104, 105] [1] ctW sdW hs₁)
      (.cons _ _ _ _ _ (.stepDecrypt sdW respCtW [2] [9] e2W hs₂) (.nil _))
  have trR : RecipientTrace (.dec dW) [.decryptOp ctW [1], .encryptOp [9] [2]]
      (.dec d2W) :=
    .cons _ _ _ _ _ (.stepDecrypt dW ctW [1] [104, 105] reW hr₁)
      (.cons _ _ _ _ _ (.stepEncrypt reW [9] [2] respCtW d2W hr₂) (.nil _))
  exact ⟨oak_strict_alternation.1 _ _ _ (.stepEncrypt eW [104, 105] [1] ctW sdW hs₁),
         trS,
         oak_strict_alternation.2.1 _ _ _ trS,
         oak_strict_alternation.2.2.1 _ _ _ (.stepDecrypt dW ctW [1] [104, 105] reW hr₁),
         trR,
         oak_strict_alternation.2.2.2 _ _ _ trR⟩

/-- C7: the providers are read-only after construction: `create_encryptor`,
`create_decryptor` and `get_serialized_public_key` leave the stored recipient
public key, respectively the stored key pair, unchanged, so repeated calls
observe the same stored key material and behave identically. -/
theorem oak_providers_read_only :
    (∀ (p : SenderCryptoProvider) (rng : Nat),
      (p.create_encryptor_call rng).2.serialized_recipient_public_key =
        p.serialized_recipient_public_key) ∧
    (∀ r : RecipientCryptoProvider,
      r.get_serialized_public_key_call.2.key_pair = r.key_pair) ∧
    (∀ (r : RecipientCryptoProvider) (enc : KeyBytes),
      (r.create_decryptor_call enc).2.key_pair = r.key_pair) ∧
    (∀ (r : RecipientCryptoProvider) (enc : KeyBytes),
      (r.create_decryptor_call enc).2.get_serialized_public_key =
        r.get_serialized_public_key) ∧
    (∀ (p : SenderCryptoProvider) (rng rng₂ : Nat),
      (p.create_encryptor_call rng).2.create_encryptor rng₂ = p.create_encryptor rng₂) ∧
    (∀ (r : RecipientCryptoProvider) (enc : KeyBytes),
      (r.create_decryptor_call enc).2.get_serialized_public_key_call.1 =
        r.get_serialized_public_key_call.1) :=
  ⟨fun _ _ => rfl, fun _ => rfl, fun _ _ => rfl, fun _ _ => rfl,
   fun _ _ _ => rfl, fun _ _ => rfl⟩

/-- C8: scenario S6 — a 65-byte buffer of `0x04` followed by 64 zero bytes is
not a valid curve point ((0, 0) fails the P-256 curve equation), so
`create_encryptor` on a provider holding it fails with `InvalidPublicKey`
instead of returning an encryptor. -/
theorem oak_s6_invalid_public_key :
    (SenderCryptoProvider.new (.raw (4 :: List.replicate 64 0))).create_encryptor 0 =
      .error ⟨["couldn\x27t create sender request encryptor"], .InvalidPublicKey⟩ := by
  rfl

/-- C9: `SenderCryptoProvider::new` is total and never fails — for every input
it returns a provider storing exactly that serialized key, with no validation
at construction; a malformed key is only rejected later, when
`create_encryptor` runs the HPKE setup. -/
theorem oak_new_total_stores_bytes :
    (∀ k : KeyBytes, (SenderCryptoProvider.new k).serialized_recipient_public_key = k) ∧
    (∀ (bs : Bytes) (rng : Nat), sec1ValidPoint bs = false →
      (SenderCryptoProvider.new (.raw bs)).create_encryptor rng =
        .error ⟨["couldn\x27t create sender request encryptor"], .InvalidPublicKey⟩) := by
  refine ⟨fun _ => rfl, fun bs rng h => ?_⟩
  simp [SenderCryptoProvider.new, SenderCryptoProvider.create_encryptor, setup_base_sender,
    deserializePoint, h, errContext, Bind.bind, Except.bind]

/-- C9 witness: a three-byte buffer is stored verbatim by `new` and rejected
only at `create_encryptor`. -/
theorem oak_new_total_stores_bytes_witness :
    (SenderCryptoProvider.new (.raw [4, 0, 7])).serialized_recipient_public_key =
      .raw [4, 0, 7] ∧
    (SenderCryptoProvider.new (.raw [4, 0, 7])).create_encryptor 3 =
      .error ⟨["couldn\x27t create sender request encryptor"], .InvalidPublicKey⟩ :=
  ⟨oak_new_total_stores_bytes.1 (.raw [4, 0, 7]),
   oak_new_total_stores_bytes.2 [4, 0, 7] 3 (by decide)⟩

/-- C10: each successful wrapper operation forwards the context it did not use
into the returned wrapper unchanged: `SenderRequestEncryptor::encrypt` forwards
its response context, `SenderResponseDecryptor::decrypt` its request context,
`RecipientRequestDecryptor::decrypt` its response context and
`RecipientResponseEncryptor::encrypt` its request context. -/
theorem oak_context_forwarding :
    (∀ (e : SenderRequestEncryptor) (pt aad : Bytes) (r : Ciphertext × SenderResponseDecryptor),
      e.encrypt pt aad = .ok r → r.2.sender_response_context = e.sender_response_context) ∧
    (∀ (d : SenderResponseDecryptor) (ct : Ciphertext) (aad : Bytes)
       (r : Bytes × SenderRequestEncryptor),
      d.decrypt ct aad = .ok r → r.2.sender_context = d.sender_context) ∧
    (∀ (d : RecipientRequestDecryptor) (ct : Ciphertext) (aad : Bytes)
       (r : Bytes × RecipientResponseEncryptor),
      d.decrypt ct aad = .ok r →
        r.2.recipient_response_context = d.recipient_response_context) ∧
    (∀ (e : RecipientResponseEncryptor) (pt aad : Bytes)
       (r : Ciphertext × RecipientRequestDecryptor),
      e.encrypt pt aad = .ok r → r.2.recipient_context = e.recipient_context) := by
  refine ⟨fun e pt aad r h => ?_, fun d ct aad r h => ?_, fun d ct aad r h => ?_,
    fun e pt aad r h => ?_⟩
  · simp only [SenderRequestEncryptor.encrypt, Bind.bind, Except.bind] at h
    split at h
    · exact absurd h (by simp)
    · injection h with h₂; subst h₂; rfl
  · simp only [SenderResponseDecryptor.decrypt, Bind.bind, Except.bind] at h
    split at h
    · exact absurd h (by simp)
    · injection h with h₂; subst h₂; rfl
  · simp only [RecipientRequestDecryptor.decrypt, Bind.bind, Except.bind] at h
    split at h
    · exact absurd h (by simp)
    · injection h with h₂; subst h₂; rfl
  · simp only [RecipientResponseEncryptor.encrypt, Bind.bind, Except.bind] at h
    split at h
    · exact absurd h (by simp)
    · injection h with h₂; subst h₂; rfl

/-- C10 witness: on the fixture session, each of the four operations forwards
its unused context verbatim. -/
theorem oak_context_forwarding_witness :
    (eW.encrypt [104, 105] [1] = .ok (ctW, sdW) ∧
      sdW.sender_response_context = eW.sender_response_context) ∧
    (sdW.decrypt respCtW [2] = .ok ([9], e2W) ∧
      e2W.sender_context = sdW.sender_context) ∧
    (dW.decrypt ctW [1] = .ok ([104, 105], reW) ∧
      reW.recipient_response_context = dW.recipient_response_context) ∧
    (reW.encrypt [9] [2] = .ok (respCtW, d2W) ∧
      d2W.recipient_context = reW.recipient_context) :=
  ⟨⟨rfl, oak_context_forwarding.1 eW [104, 105] [1] (ctW, sdW) rfl⟩,
   ⟨rfl, oak_context_forwarding.2.1 sdW respCtW [2] ([9], e2W) rfl⟩,
   ⟨rfl, oak_context_forwarding.2.2.1 dW ctW [1] ([104, 105], reW) rfl⟩,
   ⟨rfl, oak_context_forwarding.2.2.2 reW [9] [2] (respCtW, d2W) rfl⟩⟩

/-- C4: `create_encryptor` may be called any number of times on the same
provider, each call performing exactly one fresh HPKE setup (the returned
wrapper holds precisely the contexts of that setup) and each starting an
independent session: the encapsulated key is produced by that call alone, is
the serialization of that call's fresh ephemeral scalar, and calls with
distinct ephemeral draws yield distinct encapsulated keys; the provider is
untouched, so later calls behave exactly as first calls. -/
theorem oak_encapsulated_key_once_per_session :
    (∀ (p : SenderCryptoProvider) (rng : Nat) (r : KeyBytes × SenderRequestEncryptor),
      p.create_encryptor rng = .ok r →
        r.1 = .point (sampleScalar rng) ∧
        setup_base_sender p.serialized_recipient_public_key OAK_HPKE_INFO rng =
          .ok (r.1, r.2.sender_context, r.2.sender_response_context)) ∧
    (∀ (p : SenderCryptoProvider) (rng rng₂ : Nat),
      (p.create_encryptor_call rng).2.create_encryptor rng₂ = p.create_encryptor rng₂) ∧
    (∀ (p : SenderCryptoProvider) (rng rng₂ : Nat)
       (r r₂ : KeyBytes × SenderRequestEncryptor),
      p.create_encryptor rng = .ok r → p.create_encryptor rng₂ = .ok r₂ →
      sampleScalar rng ≠ sampleScalar rng₂ → r.1 ≠ r₂.1) := by
  have hmain : ∀ (p : SenderCryptoProvider) (rng : Nat) (r : KeyBytes × SenderRequestEncryptor),
      p.create_encryptor rng = .ok r →
        r.1 = .point (sampleScalar rng) ∧
        setup_base_sender p.serialized_recipient_public_key OAK_HPKE_INFO rng =
          .ok (r.1, r.2.sender_context, r.2.sender_response_context) := by
    intro p rng r h
    simp only [SenderCryptoProvider.create_encryptor, Bind.bind, Except.bind] at h
    split at h
    · exact absurd h (by simp)
    · rename_i v heq
      injection h with h₂
      subst h₂
      have hst := errContext_ok _ _ _ heq
      obtain ⟨pt, hdes, hv⟩ := setup_base_sender_ok _ _ _ _ hst
      constructor
      · rw [hv]
      · exact hst
  refine ⟨hmain, fun _ _ _ => rfl, fun p rng rng₂ r r₂ h h₂ hne => ?_⟩
  rw [(hmain p rng r h).1, (hmain p rng₂ r₂ h₂).1]
  exact fun hc => hne (KeyBytes.point.inj hc)

/-- C4 witness: two calls with randomness 1 and 2 on the provider holding the
point of scalar 5 — each returns its own fresh encapsulated key and the
contexts of its own setup, the provider carried through the first call serves
the second unchanged, and the two encapsulated keys differ. -/
theorem oak_encapsulated_key_once_per_session_witness :
    ((SenderCryptoProvider.new (.point 5)).create_encryptor 1 = .ok rW1) ∧
    rW1.1 = .point (sampleScalar 1) ∧
    (setup_base_sender (KeyBytes.point 5) OAK_HPKE_INFO 1 =
      .ok (rW1.1, rW1.2.sender_context, rW1.2.sender_response_context)) ∧
    (((SenderCryptoProvider.new (.point 5)).create_encryptor_call 1).2.create_encryptor 2 =
      (SenderCryptoProvider.new (.point 5)).create_encryptor 2) ∧
    ((SenderCryptoProvider.new (.point 5)).create_encryptor 2 = .ok rW2) ∧
    rW1.1 ≠ rW2.1 :=
  ⟨rfl,
   (oak_encapsulated_key_once_per_session.1 (SenderCryptoProvider.new (.point 5)) 1 rW1 rfl).1,
   (oak_encapsulated_key_once_per_session.1 (SenderCryptoProvider.new (.point 5)) 1 rW1 rfl).2,
   oak_encapsulated_key_once_per_session.2.1 (SenderCryptoProvider.new (.point 5)) 1 2,
   rfl,
   oak_encapsulated_key_once_per_session.2.2 (SenderCryptoProvider.new (.point 5)) 1 2
     rW1 rW2 rfl rfl (by decide)⟩

/-- C5: both sides bind the same fixed info string — every derived key and
base nonce in the wrappers returned by `create_encryptor` and
`create_decryptor` is bound to exactly the UTF-8 bytes of
`Oak Hybrid Public Key Encryption v1`, and the façade signatures take no info
argument a caller could vary. -/
theorem oak_info_string_fixed :
    OAK_HPKE_INFO = [79, 97, 107, 32, 72, 121, 98, 114, 105, 100, 32, 80, 117, 98, 108,
      105, 99, 32, 75, 101, 121, 32, 69, 110, 99, 114, 121, 112, 116, 105, 111, 110,
      32, 118, 49] ∧
    (∀ (p : SenderCryptoProvider) (rng : Nat) (r : KeyBytes × SenderRequestEncryptor),
      p.create_encryptor rng = .ok r →
        r.2.sender_context.ctx.key.infoOf = OAK_HPKE_INFO ∧
        r.2.sender_context.ctx.base_nonce.infoOf = OAK_HPKE_INFO ∧
        r.2.sender_response_context.ctx.key.infoOf = OAK_HPKE_INFO ∧
        r.2.sender_response_context.ctx.base_nonce.infoOf = OAK_HPKE_INFO) ∧
    (∀ (rp : RecipientCryptoProvider) (enc : KeyBytes) (d : RecipientRequestDecryptor),
      rp.create_decryptor enc = .ok d →
        d.recipient_context.ctx.key.infoOf = OAK_HPKE_INFO ∧
        d.recipient_context.ctx.base_nonce.infoOf = OAK_HPKE_INFO ∧
        d.recipient_response_context.ctx.key.infoOf = OAK_HPKE_INFO ∧
        d.recipient_response_context.ctx.base_nonce.infoOf = OAK_HPKE_INFO) := by
  refine ⟨by decide, ?_, ?_⟩
  · intro p rng r h
    simp only [SenderCryptoProvider.create_encryptor, Bind.bind, Except.bind] at h
    split at h
    · exact absurd h (by simp)
    · rename_i v heq
      injection h with h₂
      subst h₂
      obtain ⟨pt, hdes, hv⟩ := setup_base_sender_ok _ _ _ _ (errContext_ok _ _ _ heq)
      rw [hv]
      exact ⟨rfl, rfl, rfl, rfl⟩
  · intro rp enc d h
    simp only [RecipientCryptoProvider.create_decryptor, Bind.bind, Except.bind] at h
    split at h
    · exact absurd h (by simp)
    · rename_i v heq
      injection h with h₂
      subst h₂
      obtain ⟨pt, hdes, hv⟩ := setup_base_recipient_ok _ _ _ _ (errContext_ok _ _ _ heq)
      rw [hv]
      exact ⟨rfl, rfl, rfl, rfl⟩

/-- C5 witness: on concrete setups of both sides, the derived material is
bound to the fixed info string. -/
theorem oak_info_string_fixed_witness :
    ((SenderCryptoProvider.new (.point 5)).create_encryptor 1 = .ok rW1) ∧
    rW1.2.sender_context.ctx.key.infoOf = OAK_HPKE_INFO ∧
    rW1.2.sender_response_context.ctx.base_nonce.infoOf = OAK_HPKE_INFO ∧
    ((RecipientCryptoProvider.mk ⟨5⟩).create_decryptor (.point 2) = .ok dW5) ∧
    dW5.recipient_context.ctx.key.infoOf = OAK_HPKE_INFO ∧
    dW5.recipient_response_context.ctx.base_nonce.infoOf = OAK_HPKE_INFO :=
  ⟨rfl,
   (oak_info_string_fixed.2.1 (SenderCryptoProvider.new (.point 5)) 1 rW1 rfl).1,
   (oak_info_string_fixed.2.1 (SenderCryptoProvider.new (.point 5)) 1 rW1 rfl).2.2.2,
   rfl,
   (oak_info_string_fixed.2.2 (RecipientCryptoProvider.mk ⟨5⟩) (.point 2) dW5 rfl).1,
   (oak_info_string_fixed.2.2 (RecipientCryptoProvider.mk ⟨5⟩) (.point 2) dW5 rfl).2.2.2⟩

/-- C6: every error returned by a façade operation carries, at the head of its
context stack, the human-readable string naming the operation that failed. -/
theorem oak_error_context_strings :
    (∀ (p : SenderCryptoProvider) (rng : Nat) (e : CryptoError),
      p.create_encryptor rng = .error e →
        e.contextMsgs.head? = some "couldn\x27t create sender request encryptor") ∧
    (∀ (x : SenderRequestEncryptor) (pt aad : Bytes) (e : CryptoError),
      x.encrypt pt aad = .error e →
        e.contextMsgs.head? = some "couldn\x27t encrypt request") ∧
    (∀ (x : SenderResponseDecryptor) (ct : Ciphertext) (aad : Bytes) (e : CryptoError),
      x.decrypt ct aad = .error e →
        e.contextMsgs.head? = some "couldn\x27t decrypt response") ∧
    (∀ (rp : RecipientCryptoProvider) (enc : KeyBytes) (e : CryptoError),
      rp.create_decryptor enc = .error e →
        e.contextMsgs.head? = some "couldn\x27t create recipient request decryptor") ∧
    (∀ (x : RecipientRequestDecryptor) (ct : Ciphertext) (aad : Bytes) (e : CryptoError),
      x.decrypt ct aad = .error e →
        e.contextMsgs.head? = some "couldn\x27t decrypt request") ∧
    (∀ (x : RecipientResponseEncryptor) (pt aad : Bytes) (e : CryptoError),
      x.encrypt pt aad = .error e →
        e.contextMsgs.head? = some "couldn\x27t encrypt response") := by
  refine ⟨fun p rng e h => ?_, fun x pt aad e h => ?_, fun x ct aad e h => ?_,
    fun rp enc e h => ?_, fun x ct aad e h => ?_, fun x pt aad e h => ?_⟩
  · simp only [SenderCryptoProvider.create_encryptor, Bind.bind, Except.bind] at h
    split at h
    · rename_i err heq
      injection h with h₂; subst h₂
      exact errContext_error_head _ _ _ heq
    · exact absurd h (by simp)
  · simp only [SenderRequestEncryptor.encrypt, Bind.bind, Except.bind] at h
    split at h
    · rename_i err heq
      injection h with h₂; subst h₂
      exact errContext_error_head _ _ _ heq
    · exact absurd h (by simp)
  · simp only [SenderResponseDecryptor.decrypt, Bind.bind, Except.bind] at h
    split at h
    · rename_i err heq
      injection h with h₂; subst h₂
      exact errContext_error_head _ _ _ heq
    · exact absurd h (by simp)
  · simp only [RecipientCryptoProvider.create_decryptor, Bind.bind, Except.bind] at h
    split at h
    · rename_i err heq
      injection h with h₂; subst h₂
      exact errContext_error_head _ _ _ heq
    · exact absurd h (by simp)
  · simp only [RecipientRequestDecryptor.decrypt, Bind.bind, Except.bind] at h
    split at h
    · rename_i err heq
      injection h with h₂; subst h₂
      exact errContext_error_head _ _ _ heq
    · exact absurd h (by simp)
  · simp only [RecipientResponseEncryptor.encrypt, Bind.bind, Except.bind] at h
    split at h
    · rename_i err heq
      injection h with h₂; subst h₂
      exact errContext_error_head _ _ _ heq
    · exact absurd h (by simp)

/-- C6 witness: a failing instance of each of the six façade operations (an
identity public key for both setups, a near-overflow sequence counter for both
encrypts, a foreign-key ciphertext for both decrypts), each carrying its
context string. -/
theorem oak_error_context_strings_witness :
    ((SenderCryptoProvider.new (.point 0)).create_encryptor 0 =
      .error ⟨["couldn\x27t create sender request encryptor"], .InvalidPublicKey⟩) ∧
    (⟨["couldn\x27t create sender request encryptor"],
        CryptoErrorKind.InvalidPublicKey⟩ : CryptoError).contextMsgs.head? =
      some "couldn\x27t create sender request encryptor" ∧
    (eOverW.encrypt [] [] = .error ⟨["couldn\x27t encrypt request"], .NonceOverflow⟩) ∧
    (⟨["couldn\x27t encrypt request"],
        CryptoErrorKind.NonceOverflow⟩ : CryptoError).contextMsgs.head? =
      some "couldn\x27t encrypt request" ∧
    (sdW.decrypt badCtW [] =
      .error ⟨["couldn\x27t decrypt response"], .AuthenticationFailure⟩) ∧
    (⟨["couldn\x27t decrypt response"],
        CryptoErrorKind.AuthenticationFailure⟩ : CryptoError).contextMsgs.head? =
      some "couldn\x27t decrypt response" ∧
    ((RecipientCryptoProvider.mk ⟨5⟩).create_decryptor (.point 0) =
      .error ⟨["couldn\x27t create recipient request decryptor"], .InvalidPublicKey⟩) ∧
    (⟨["couldn\x27t create recipient request decryptor"],
        CryptoErrorKind.InvalidPublicKey⟩ : CryptoError).contextMsgs.head? =
      some "couldn\x27t create recipient request decryptor" ∧
    (dW.decrypt badCtW [] =
      .error ⟨["couldn\x27t decrypt request"], .AuthenticationFailure⟩) ∧
    (⟨["couldn\x27t decrypt request"],
        CryptoErrorKind.AuthenticationFailure⟩ : CryptoError).contextMsgs.head? =
      some "couldn\x27t decrypt request" ∧
    (reOverW.encrypt [] [] = .error ⟨["couldn\x27t encrypt response"], .NonceOverflow⟩) ∧
    (⟨["couldn\x27t encrypt response"],
        CryptoErrorKind.NonceOverflow⟩ : CryptoError).contextMsgs.head? =
      some "couldn\x27t encrypt response" :=
  ⟨rfl,
   oak_error_context_strings.1 (SenderCryptoProvider.new (.point 0)) 0 _ rfl,
   rfl,
   oak_error_context_strings.2.1 eOverW [] [] _ rfl,
   rfl,
   oak_error_context_strings.2.2.1 sdW badCtW [] _ rfl,
   rfl,
   oak_error_context_strings.2.2.2.1 (RecipientCryptoProvider.mk ⟨5⟩) (.point 0) _ rfl,
   rfl,
   oak_error_context_strings.2.2.2.2.1 dW badCtW [] _ rfl,
   rfl,
   oak_error_context_strings.2.2.2.2.2 reOverW [] [] _ rfl⟩
